import Mathlib

/-!
Verification development for the appwrite-function-tools package:
a shallow embedding of the error-normalization utilities (src/error.ts),
the request-validation helpers (src/validation.ts) and the Router
component (route matching and the dispatch/error-translation pipeline),
together with proofs of the behavioural properties stated in the design
specification.

JavaScript values thrown by handlers and validators are modelled by the
inductive type `JVal`.  Objects carry their own-property list, the name
of their constructor, a flag recording whether they are an instance of
the `InvalidRequestError` class (the `instanceof` check used by the
router is identity-based, so it is a semantic property of the value and
not derivable from the field list), an optional custom string conversion
(`none` means the object uses the default `Object.prototype.toString`,
whose result is the string "[object Object]"), and an optional JSON
serialization (`none` means `JSON.stringify` raises, as it does on
cyclic structures).
-/

namespace AFT

/-- JavaScript runtime values, as far as the error-handling code observes them. -/
inductive JVal where
  | jnull
  | jundefined
  | jbool (b : Bool)
  | jnum (n : Int)
  | jstr (s : String)
  | jobj (fields : List (String × JVal)) (ctorName : String)
         (isInstIRE : Bool) (customToString : Option String)
         (jsonRepr : Option String)

/-- Property lookup on an object field list: the value stored under a key. -/
def jlookup (fields : List (String × JVal)) (k : String) : Option JVal :=
  (fields.find? (fun p => p.1 == k)).map (fun p => p.2)

/-- Embeds the JavaScript `key in obj` test. -/
def hasField (fields : List (String × JVal)) (k : String) : Bool :=
  (jlookup fields k).isSome

/-- Whether a field is present and holds a string, embedding the test
`typeof obj[k] === "string"` under presence. -/
def isStrField (fields : List (String × JVal)) (k : String) : Bool :=
  match jlookup fields k with
  | some (.jstr _) => true
  | _ => false

/-- Embeds the JavaScript `typeof` operator (note that `typeof null` is "object"). -/
def jsTypeof : JVal → String
  | .jnull => "object"
  | .jundefined => "undefined"
  | .jbool _ => "boolean"
  | .jnum _ => "number"
  | .jstr _ => "string"
  | .jobj _ _ _ _ _ => "object"

/-- Embeds JavaScript truthiness of a value. -/
def truthy : JVal → Bool
  | .jnull => false
  | .jundefined => false
  | .jbool b => b
  | .jnum n => n != 0
  | .jstr s => s != ""
  | .jobj _ _ _ _ _ => true

/-- Embeds the JavaScript `String(v)` coercion; for an object this calls its
string conversion, which is "[object Object]" when no custom one exists. -/
def jsString : JVal → String
  | .jnull => "null"
  | .jundefined => "undefined"
  | .jbool true => "true"
  | .jbool false => "false"
  | .jnum n => toString n
  | .jstr s => s
  | .jobj _ _ _ cts _ => cts.getD "[object Object]"

/-!
Embedding of src/error.ts.
-/

/-- Embeds `isObject` from src/error.ts: `typeof value === "object" && value != null`. -/
def isObject : JVal → Bool
  | .jobj _ _ _ _ _ => true
  | _ => false

/-- Embeds `getObjectMessage` from src/error.ts: prefer a string `message`
field; else a custom string conversion when the object has one; else
`JSON.stringify`, falling back to `String(obj)` when serialization raises. -/
def getObjectMessage (fields : List (String × JVal)) (cts : Option String)
    (jsonRepr : Option String) : String :=
  match jlookup fields "message" with
  | some (.jstr m) => m
  | _ =>
    match cts with
    | some s => s
    | none =>
      match jsonRepr with
      | some s => s
      | none => "[object Object]"

/-- Embeds `isError` from src/error.ts: a structural check that the value is an
object with a string `name`, a string `message`, and a `stack` field that, when
present, is a string.  It is not an `instanceof Error` identity check. -/
def isError : JVal → Bool
  | .jobj fields _ _ _ _ =>
      isStrField fields "name" && isStrField fields "message" &&
        (!hasField fields "stack" || isStrField fields "stack")
  | _ => false

/-- Result of `new Error(msg)` followed by `error.name = nm`: an object whose
`name`, `message` and `stack` fields are strings, whose constructor is `Error`,
which is not an instance of `InvalidRequestError`, and which has the custom
string conversion of errors. -/
def mkErrorObj (nm msg : String) : JVal :=
  .jobj [("name", .jstr nm), ("message", .jstr msg), ("stack", .jstr "")]
    "Error" false (some (nm ++ ": " ++ msg)) (some "\x7b\x7d")

/-- Embeds `asError` from src/error.ts: an error-like value is returned
unchanged; otherwise a fresh `Error` is built whose message comes from
`getObjectMessage` or `String(v)` and whose name is
`(isObject(err) && err.constructor.name) || typeof err`
(the `typeof` fallback fires when the constructor name is the empty,
hence falsy, string). -/
def asError (v : JVal) : JVal :=
  if isError v then v
  else
    match v with
    | .jobj fields ctor _ cts jr =>
        mkErrorObj (if ctor == "" then "object" else ctor)
          (getObjectMessage fields cts jr)
    | w => mkErrorObj (jsTypeof w) (jsString w)

/-- Property access `v.message` as the router and helpers perform it. -/
def errMessage : JVal → JVal
  | .jobj fields _ _ _ _ => (jlookup fields "message").getD .jundefined
  | _ => .jundefined

/-- Property access `v.name` as a string, empty when the field is not a string. -/
def errNameStr (v : JVal) : String :=
  match v with
  | .jobj fields _ _ _ _ =>
      match jlookup fields "name" with
      | some (.jstr s) => s
      | _ => ""
  | _ => ""

/-- String content of `v.message`, empty when the field is not a string. -/
def errMessageStr (v : JVal) : String :=
  match errMessage v with
  | .jstr s => s
  | _ => ""

/-- Message of the normalized form of a value: `asError(v).message`. -/
def asErrorMessageStr (v : JVal) : String :=
  errMessageStr (asError v)

/-!
Embedding of src/validation.ts.
-/

/-- Result of `new InvalidRequestError(message)`: an `Error` subclass instance
whose `name` field is the string "InvalidRequestError"; it is the only kind of
value for which the `instanceof InvalidRequestError` flag is set. -/
def mkInvalidRequestError (msg : String) : JVal :=
  .jobj [("name", .jstr "InvalidRequestError"), ("message", .jstr msg),
         ("stack", .jstr "")]
    "InvalidRequestError" true (some ("InvalidRequestError: " ++ msg)) (some "\x7b\x7d")

/-- Embeds the identity-based `err instanceof InvalidRequestError` test used by
the router: it reads the instance flag of the value and is false on every
non-object. -/
def isInstIREVal : JVal → Bool
  | .jobj _ _ inst _ _ => inst
  | _ => false

/-- Keys collected by the loop in `throwIfMissing`: those that are absent from
the object or present with a falsy value, kept in the order of the key list. -/
def missingKeys (obj : List (String × JVal)) (keys : List String) : List String :=
  keys.filter (fun k => !hasField obj k || !truthy ((jlookup obj k).getD .jundefined))

/-- Embeds `throwIfMissing` from src/validation.ts: collects the missing keys
and, when some exist, raises `InvalidRequestError` with the comma-joined list. -/
def throwIfMissing (obj : List (String × JVal)) (keys : List String) :
    Except JVal Unit :=
  if (missingKeys obj keys).length > 0 then
    .error (mkInvalidRequestError
      ("Missing required fields: " ++ String.intercalate ", " (missingKeys obj keys)))
  else
    .ok ()

/-- The request object consumed by the core, following the runtime interface in
the type definitions.  The `bodyJson` accessor may itself raise (a getter over
invalid JSON), which the embedding records as an `Except`; the thrown value is
never inspected by the code, so its type is `Unit`. -/
structure Request where
  bodyText : String
  bodyJson : Except Unit JVal
  method : String
  url : String
  scheme : String
  host : String
  port : String
  path : String
  queryString : String
  query : List (String × String)
  headers : List (String × String)

/-- Embeds `getData` from src/validation.ts: access the parsed body, turning an
access failure into `InvalidRequestError "Invalid request body"`; then run the
caller-supplied validator, re-raising anything it throws as an
`InvalidRequestError` carrying `asError(err).message`. -/
def getData {T : Type} (req : Request) (validator : JVal → Except JVal T) :
    Except JVal T :=
  match req.bodyJson with
  | .error _ => .error (mkInvalidRequestError "Invalid request body")
  | .ok body =>
    match validator body with
    | .ok t => .ok t
    | .error e => .error (mkInvalidRequestError (asErrorMessageStr e))

/-!
Embedding of the Router (src router module).

A handler is invoked with the merged context (ambient request and context
plus the extracted params) and either completes normally or throws a
JavaScript value.  The response and logging capabilities are ambient
effects; `Router.handle` is embedded as a function returning the trace of
the effects the router itself performs: the JSON responses it emits
(body and status code) and the values it forwards to the error-logging
capability.  Responses emitted by the handler itself belong to the
handler and are outside this trace.
-/

/-- Observable outcome of awaiting a handler: normal completion or a thrown value. -/
inductive HandlerOutcome where
  | ok
  | threw (v : JVal)

/-- Arguments a handler receives: the merge of the ambient fields with the
params extracted from the route path. -/
structure HandlerArgs (Ctx : Type) where
  req : Request
  context : Ctx
  params : List (String × String)

/-- Route definition: a path pattern and its handler. -/
structure Route (Ctx : Type) where
  path : String
  handler : HandlerArgs Ctx → HandlerOutcome

/-- Handler parameters passed to `Router.handle`: request and shared context
(the response, log and error capabilities are the ambient effects recorded in
the result trace). -/
structure RouteHandlerDef (Ctx : Type) where
  req : Request
  context : Ctx

/-- Result of `Router.match`: the matched handler and params, or the no-match
sentinel with a null handler and empty params. -/
structure MatchResult (Ctx : Type) where
  handler : Option (HandlerArgs Ctx → HandlerOutcome)
  params : List (String × String)

/-- Splits a character list on the path separator, dropping empty segments;
the accumulator holds the characters of the current segment in reverse. -/
def segsOfAux : List Char → List Char → List String
  | [], acc => if acc.isEmpty then [] else [⟨acc.reverse⟩]
  | c :: cs, acc =>
    if c = '/' then
      if acc.isEmpty then segsOfAux cs [] else ⟨acc.reverse⟩ :: segsOfAux cs []
    else
      segsOfAux cs (c :: acc)

/-- Path segments of a pattern or request path. -/
def segsOf (p : String) : List String :=
  segsOfAux p.data []

/-- Matches pattern segments against path segments; a segment starting with the
parameter marker captures the corresponding path segment under the declared
name, a literal segment must be equal (case-sensitively). -/
def matchSegs : List String → List String → Option (List (String × String))
  | [], [] => some []
  | pat :: ps, seg :: ss =>
    match pat.data with
    | ':' :: rest =>
      (matchSegs ps ss).map (fun acc => (String.mk rest, seg) :: acc)
    | _ => if pat = seg then matchSegs ps ss else none
  | _, _ => none

/-- Modelled from the spec: the underlying path-matching library
(route-recognizer) consumed by the Router, which is outside this repository.
Per the specification it matches the request path against the registered
patterns (literal segments and named-parameter segments) and yields the
handler with the captured named parameters, with precedence among
overlapping patterns delegated to the library; here the first registered
matching pattern wins.  Returns the empty result when nothing matches. -/
def recognize {Ctx : Type} (routes : List (Route Ctx)) (path : String) :
    Option ((HandlerArgs Ctx → HandlerOutcome) × List (String × String)) :=
  match routes with
  | [] => none
  | r :: rs =>
    match matchSegs (segsOf r.path) (segsOf path) with
    | some ps => some (r.handler, ps)
    | none => recognize rs path

/-- Embeds `Router.match`: looks up the request path against the registered
patterns and returns handler and params, or the sentinel
`{handler: null, params: {}}` when nothing matches.  Only `req.path` is
consulted. -/
def matchRoute {Ctx : Type} (routes : List (Route Ctx)) (req : Request) :
    MatchResult Ctx :=
  match recognize routes req.path with
  | some (h, ps) => ⟨some h, ps⟩
  | none => ⟨none, []⟩

/-- A JSON response emission performed through the ambient response capability:
the body (a JSON object) and the status code. -/
structure ResponseAction where
  body : List (String × JVal)
  status : Nat

/-- Effects performed by `Router.handle` itself during one dispatch: the
responses it emits and the values it passes to the error-logging capability,
each in order. -/
structure HandleResult where
  routerEmits : List ResponseAction
  logged : List JVal

/-- Embeds the catch block of `Router.handle`: the thrown value is forwarded to
the error-logging capability first, then classified by
`instanceof InvalidRequestError`; an instance yields a 400 response carrying
`err.message`, anything else the fixed 500 response. -/
def handleCatch (err : JVal) : HandleResult :=
  if isInstIREVal err then
    ⟨[⟨[("error", errMessage err)], 400⟩], [err]⟩
  else
    ⟨[⟨[("error", .jstr "Internal Server Error")], 500⟩], [err]⟩

/-- Embeds `Router.handle`: match the request path; with no handler emit the
404 not-found response; otherwise invoke the handler with the merged context
and translate a thrown value via the catch block.  On normal handler completion
the router emits nothing. -/
def handle {Ctx : Type} (routes : List (Route Ctx)) (data : RouteHandlerDef Ctx) :
    HandleResult :=
  let m := matchRoute routes data.req
  match m.handler with
  | none => ⟨[⟨[("error", .jstr "Not Found")], 404⟩], []⟩
  | some h =>
    match h ⟨data.req, data.context, m.params⟩ with
    | .ok => ⟨[], []⟩
    | .threw err => handleCatch err

/-- Substring test used to state the message-content properties: a string
contains another when the latter occurs as an infix of its character list. -/
def startsWithB : List Char → List Char → Bool
  | [], _ => true
  | _ :: _, [] => false
  | a :: as, b :: bs => a == b && startsWithB as bs

/-- Whether the first character list occurs inside the second. -/
def isInfixB (needle hay : List Char) : Bool :=
  startsWithB needle hay ||
    match hay with
    | [] => false
    | _ :: t => isInfixB needle t

/-- Whether `sub` occurs inside `s`. -/
def containsSub (s sub : String) : Bool :=
  isInfixB sub.data s.data

/-!
Helper lemmas shared by the claim theorems.
-/

theorem isError_mkErrorObj (nm msg : String) : isError (mkErrorObj nm msg) = true := rfl

theorem errNameStr_mkErrorObj (nm msg : String) : errNameStr (mkErrorObj nm msg) = nm := rfl

theorem errMessage_mkErrorObj (nm msg : String) :
    errMessage (mkErrorObj nm msg) = .jstr msg := rfl

theorem errMessage_mkIRE (msg : String) :
    errMessage (mkInvalidRequestError msg) = .jstr msg := rfl

theorem isInstIREVal_mkIRE (msg : String) :
    isInstIREVal (mkInvalidRequestError msg) = true := rfl

theorem asError_of_isError {v : JVal} (h : isError v = true) : asError v = v := by
  simp [asError, h]

theorem asError_of_not_isError {v : JVal} (h : isError v = false) :
    asError v =
      match v with
      | .jobj fields ctor _ cts jr =>
          mkErrorObj (if ctor == "" then "object" else ctor) (getObjectMessage fields cts jr)
      | w => mkErrorObj (jsTypeof w) (jsString w) := by
  unfold asError
  rw [if_neg (by simp [h] : ¬ isError v = true)]
  cases v <;> rfl

theorem isError_asError (v : JVal) : isError (asError v) = true := by
  by_cases h : isError v
  · rw [asError_of_isError h]; exact h
  · rw [asError_of_not_isError (by simpa using h)]
    cases v <;> exact isError_mkErrorObj _ _

theorem exists_message_of_isError {v : JVal} (h : isError v = true) :
    ∃ s, errMessage v = .jstr s := by
  cases v with
  | jnull => simp [isError] at h
  | jundefined => simp [isError] at h
  | jbool b => simp [isError] at h
  | jnum n => simp [isError] at h
  | jstr s => simp [isError] at h
  | jobj fields ctor inst cts jr =>
    have hmsg : isStrField fields "message" = true := by
      simp only [isError, Bool.and_eq_true] at h
      exact h.1.2
    unfold isStrField at hmsg
    cases hj : jlookup fields "message" with
    | none => rw [hj] at hmsg; simp at hmsg
    | some w =>
      cases w with
      | jstr s => exact ⟨s, by simp [errMessage, hj]⟩
      | jnull => rw [hj] at hmsg; simp at hmsg
      | jundefined => rw [hj] at hmsg; simp at hmsg
      | jbool b => rw [hj] at hmsg; simp at hmsg
      | jnum n => rw [hj] at hmsg; simp at hmsg
      | jobj f2 c2 i2 t2 j2 => rw [hj] at hmsg; simp at hmsg

/-!
Claim theorems.
-/

/-- C1: when the matched handler throws an `InvalidRequestError` instance whose
message is M, `Router.handle` emits exactly one response, the JSON body
`{error: M}` with status 400, and makes exactly one call to the error-logging
capability passing the original thrown value. -/
theorem handle_invalid_request {Ctx : Type} (routes : List (Route Ctx))
    (data : RouteHandlerDef Ctx) (hd : HandlerArgs Ctx → HandlerOutcome)
    (e : JVal) (m : String)
    (hmatch : (matchRoute routes data.req).handler = some hd)
    (hthrow : hd ⟨data.req, data.context, (matchRoute routes data.req).params⟩ = .threw e)
    (hinst : isInstIREVal e = true)
    (hmsg : errMessage e = .jstr m) :
    handle routes data = ⟨[⟨[("error", .jstr m)], 400⟩], [e]⟩ := by
  simp [handle, hmatch, hthrow, handleCatch, hinst, hmsg]

/-- Witness for C1 on a concrete route table and request. -/
def reqUsers7 : Request :=
  ⟨"", .ok .jnull, "GET", "http://h/users/7", "http", "h", "80", "/users/7", "", [], []⟩

/-- Handler that rejects its input with an `InvalidRequestError`. -/
def badIdHandler : HandlerArgs Unit → HandlerOutcome :=
  fun _ => .threw (mkInvalidRequestError "bad id")

/-- Demo route table with a parameterised route. -/
def demoRoutes : List (Route Unit) := [⟨"/users/:id", badIdHandler⟩]

theorem handle_invalid_request_witness :
    handle demoRoutes ⟨reqUsers7, ()⟩ =
      ⟨[⟨[("error", .jstr "bad id")], 400⟩], [mkInvalidRequestError "bad id"]⟩ :=
  handle_invalid_request demoRoutes ⟨reqUsers7, ()⟩ badIdHandler
    (mkInvalidRequestError "bad id") "bad id" rfl rfl rfl rfl

/-- C2: when the matched handler throws any value that is not an
`InvalidRequestError` instance, `Router.handle` emits exactly one response with
status 500 and the fixed body `{error: "Internal Server Error"}`; the right
side of the equality does not depend on the thrown value, so the response is
identical for any two such values and the original message never reaches the
client, while the logging capability receives the original value unmodified. -/
theorem handle_server_error {Ctx : Type} (routes : List (Route Ctx))
    (data : RouteHandlerDef Ctx) (hd : HandlerArgs Ctx → HandlerOutcome) (e : JVal)
    (hmatch : (matchRoute routes data.req).handler = some hd)
    (hthrow : hd ⟨data.req, data.context, (matchRoute routes data.req).params⟩ = .threw e)
    (hninst : isInstIREVal e = false) :
    handle routes data = ⟨[⟨[("error", .jstr "Internal Server Error")], 500⟩], [e]⟩ := by
  simp [handle, hmatch, hthrow, handleCatch, hninst]

/-- Handler that throws a plain string. -/
def boomHandler : HandlerArgs Unit → HandlerOutcome := fun _ => .threw (.jstr "boom")

/-- Demo route table whose handler throws a non-error value. -/
def routesBoom : List (Route Unit) := [⟨"/ping", boomHandler⟩]

/-- Demo request reaching the throwing handler. -/
def reqPing : Request :=
  ⟨"", .ok .jnull, "GET", "http://h/ping", "http", "h", "80", "/ping", "", [], []⟩

theorem handle_server_error_witness :
    handle routesBoom ⟨reqPing, ()⟩ =
      ⟨[⟨[("error", .jstr "Internal Server Error")], 500⟩], [.jstr "boom"]⟩ :=
  handle_server_error routesBoom ⟨reqPing, ()⟩ boomHandler (.jstr "boom") rfl rfl rfl

/-- C3: on a request path that matches no registered pattern, `Router.match`
returns the no-match sentinel `{handler: null, params: {}}` and `Router.handle`
emits exactly one response, the JSON body `{error: "Not Found"}` with status
404, performing no logging call; no handler is invoked (the trace is produced
without evaluating any handler) and, both functions being total, neither
raises. -/
theorem handle_not_found {Ctx : Type} (routes : List (Route Ctx))
    (data : RouteHandlerDef Ctx)
    (h : recognize routes data.req.path = none) :
    matchRoute routes data.req = ⟨none, []⟩ ∧
      handle routes data = ⟨[⟨[("error", .jstr "Not Found")], 404⟩], []⟩ := by
  constructor
  · simp [matchRoute, h]
  · simp [handle, matchRoute, h]

/-- Demo request whose path matches nothing in `demoRoutes`. -/
def reqNope : Request :=
  ⟨"", .ok .jnull, "GET", "http://h/nope", "http", "h", "80", "/nope", "", [], []⟩

theorem handle_not_found_witness :
    matchRoute demoRoutes reqNope = ⟨none, []⟩ ∧
      handle demoRoutes ⟨reqNope, ()⟩ =
        ⟨[⟨[("error", .jstr "Not Found")], 404⟩], []⟩ :=
  handle_not_found demoRoutes ⟨reqNope, ()⟩ rfl

/-- C4: `Router.handle` is a total function (it never raises: every handler
failure is caught and translated) and every dispatch produces exactly one of
the four outcomes: the 404 not-found response, normal handler completion with
no router-emitted response, the 400 client-error response for a thrown
`InvalidRequestError` instance, or the fixed 500 server-error response. -/
theorem handle_one_outcome {Ctx : Type} (routes : List (Route Ctx))
    (data : RouteHandlerDef Ctx) :
    handle routes data = ⟨[⟨[("error", .jstr "Not Found")], 404⟩], []⟩ ∨
    handle routes data = ⟨[], []⟩ ∨
    (∃ e, isInstIREVal e = true ∧
      handle routes data = ⟨[⟨[("error", errMessage e)], 400⟩], [e]⟩) ∨
    (∃ e, isInstIREVal e = false ∧
      handle routes data =
        ⟨[⟨[("error", .jstr "Internal Server Error")], 500⟩], [e]⟩) := by
  cases hm : (matchRoute routes data.req).handler with
  | none => exact Or.inl (by simp [handle, hm])
  | some h =>
    cases ho : h ⟨data.req, data.context, (matchRoute routes data.req).params⟩ with
    | ok => exact Or.inr (Or.inl (by simp [handle, hm, ho]))
    | threw e =>
      by_cases hi : isInstIREVal e = true
      · exact Or.inr (Or.inr (Or.inl
          ⟨e, hi, by simp [handle, hm, ho, handleCatch, hi]⟩))
      · exact Or.inr (Or.inr (Or.inr
          ⟨e, by simpa using hi, by simp [handle, hm, ho, handleCatch, hi]⟩))

/-- C5: `getData` turns a failing body access into
`InvalidRequestError "Invalid request body"`, re-raises anything the validator
throws as an `InvalidRequestError` carrying the normalized message of the
thrown value (the original kind of the thrown value is discarded), returns the
validator result unchanged on success, and every value it raises is an
`InvalidRequestError` instance. -/
theorem getData_spec {T : Type} (req : Request) (validator : JVal → Except JVal T) :
    (∀ u, req.bodyJson = .error u →
       getData req validator = .error (mkInvalidRequestError "Invalid request body")) ∧
    (∀ b e, req.bodyJson = .ok b → validator b = .error e →
       getData req validator = .error (mkInvalidRequestError (asErrorMessageStr e))) ∧
    (∀ b t, req.bodyJson = .ok b → validator b = .ok t →
       getData req validator = .ok t) ∧
    (∀ e, getData req validator = .error e → isInstIREVal e = true) := by
  refine ⟨?_, ?_, ?_, ?_⟩
  · intro u hu; simp [getData, hu]
  · intro b e hb he; simp [getData, hb, he]
  · intro b t hb ht; simp [getData, hb, ht]
  · intro e he
    cases hb : req.bodyJson with
    | error u =>
      have h1 : getData req validator =
          .error (mkInvalidRequestError "Invalid request body") := by simp [getData, hb]
      rw [h1] at he
      injection he with h2
      rw [← h2]; rfl
    | ok b =>
      cases hv : validator b with
      | ok t =>
        have h1 : getData req validator = .ok t := by simp [getData, hb, hv]
        rw [h1] at he; simp at he
      | error e2 =>
        have h1 : getData req validator =
            .error (mkInvalidRequestError (asErrorMessageStr e2)) := by
          simp [getData, hb, hv]
        rw [h1] at he
        injection he with h2
        rw [← h2]; rfl

/-- Demo request whose parsed-body access raises. -/
def reqBadBody : Request :=
  ⟨"\x7b", .error (), "POST", "http://h/x", "http", "h", "80", "/x", "", [], []⟩

/-- Demo request whose parsed-body access succeeds. -/
def reqOkBody : Request :=
  ⟨"null", .ok .jnull, "POST", "http://h/x", "http", "h", "80", "/x", "", [], []⟩

/-- Validator that always throws `Error("bad shape")`. -/
def badShapeValidator : JVal → Except JVal Nat :=
  fun _ => .error (mkErrorObj "Error" "bad shape")

theorem getData_spec_witness :
    getData reqBadBody (fun _ => (.ok 0 : Except JVal Nat)) =
        .error (mkInvalidRequestError "Invalid request body") ∧
      getData reqOkBody badShapeValidator =
        .error (mkInvalidRequestError "bad shape") :=
  ⟨(getData_spec reqBadBody (fun _ => .ok 0)).1 () rfl,
   (getData_spec reqOkBody badShapeValidator).2.1 .jnull
     (mkErrorObj "Error" "bad shape") rfl rfl⟩

/-- C6: `throwIfMissing` raises exactly when some listed key is absent from the
object or present with a falsy value, it raises an `InvalidRequestError`
instance, and the message is "Missing required fields: " followed by exactly
the missing keys, in the order of the key list, comma-joined. -/
theorem throwIfMissing_spec (obj : List (String × JVal)) (keys : List String) :
    ((∃ e, throwIfMissing obj keys = .error e) ↔
       ∃ k ∈ keys, hasField obj k = false ∨
         truthy ((jlookup obj k).getD .jundefined) = false) ∧
    (∀ e, throwIfMissing obj keys = .error e →
       e = mkInvalidRequestError
             ("Missing required fields: " ++
               String.intercalate ", " (missingKeys obj keys)) ∧
         isInstIREVal e = true) := by
  constructor
  · constructor
    · rintro ⟨e, he⟩
      unfold throwIfMissing at he
      by_cases hm : (missingKeys obj keys).length > 0
      · have hne : missingKeys obj keys ≠ [] := by
          intro h0; rw [h0] at hm; simp at hm
        obtain ⟨k, hk⟩ := List.exists_mem_of_ne_nil _ hne
        rw [missingKeys, List.mem_filter] at hk
        obtain ⟨hkin, hkp⟩ := hk
        refine ⟨k, hkin, ?_⟩
        simpa [Bool.or_eq_true, Bool.not_eq_true'] using hkp
      · rw [if_neg hm] at he; simp at he
    · rintro ⟨k, hkin, hkp⟩
      unfold throwIfMissing
      have hk : k ∈ missingKeys obj keys := by
        rw [missingKeys, List.mem_filter]
        refine ⟨hkin, ?_⟩
        rcases hkp with h | h <;> simp [h]
      have hm : (missingKeys obj keys).length > 0 := by
        apply List.length_pos.mpr
        intro h0; rw [h0] at hk; cases hk
      rw [if_pos hm]
      exact ⟨_, rfl⟩
  · intro e he
    unfold throwIfMissing at he
    by_cases hm : (missingKeys obj keys).length > 0
    · rw [if_pos hm] at he
      injection he with h2
      exact ⟨h2.symm, by rw [← h2]; rfl⟩
    · rw [if_neg hm] at he; simp at he

theorem throwIfMissing_witness :
    (∃ e, throwIfMissing [("a", .jnum 1)] ["a", "b"] = .error e) ∧
      throwIfMissing [("a", .jnum 1)] ["a", "b"] =
        .error (mkInvalidRequestError "Missing required fields: b") ∧
      containsSub "Missing required fields: b" "b" = true ∧
      containsSub "Missing required fields: b" "a" = false := by
  have h1 : ∃ e, throwIfMissing [("a", .jnum 1)] ["a", "b"] = .error e :=
    (throwIfMissing_spec [("a", .jnum 1)] ["a", "b"]).1.mpr
      ⟨"b", by decide, Or.inl (by decide)⟩
  obtain ⟨e, he⟩ := h1
  have h2 := ((throwIfMissing_spec [("a", .jnum 1)] ["a", "b"]).2 e he).1
  refine ⟨⟨e, he⟩, ?_, by decide, by decide⟩
  rw [he, h2]
  rfl

/-- Concrete object that is error-like (string `name` and `message` fields) but
is a plain object: its constructor is `Object` and it is not an instance of any
`Error` class. -/
def vFooNamed : JVal :=
  .jobj [("name", .jstr "Foo"), ("message", .jstr "m")] "Object" false none none

/-- C7 counterexample: the claim says the result of `asError` has a name equal
to the constructor name of the input whenever the input is an object; on the
error-like plain object `vFooNamed` (constructor name "Object") the code
returns the value unchanged, so the name of the result is its own `name` field
"Foo", not "Object". -/
theorem asError_name_cex :
    asError vFooNamed = vFooNamed ∧
      errNameStr (asError vFooNamed) = "Foo" ∧
      errNameStr (asError vFooNamed) ≠ "Object" :=
  ⟨rfl, rfl, by decide⟩

/-- C7 amended: `asError` never raises (it is total) and always returns an
error-like value, hence one with a string message; an input that is already
error-like is returned unchanged, keeping its own name; only for inputs that
are not error-like is the name of the freshly constructed error the constructor
name of the value when it is an object with a nonempty (truthy) constructor
name, and the runtime type tag of the value otherwise. -/
theorem asError_total_spec (v : JVal) :
    isError (asError v) = true ∧
    (∃ s, errMessage (asError v) = .jstr s) ∧
    (isError v = true → asError v = v) ∧
    (isError v = false →
      errNameStr (asError v) =
        match v with
        | .jobj _ ctor _ _ _ => if ctor == "" then "object" else ctor
        | w => jsTypeof w) := by
  refine ⟨isError_asError v, exists_message_of_isError (isError_asError v), ?_, ?_⟩
  · intro h; exact asError_of_isError h
  · intro h
    rw [asError_of_not_isError h]
    cases v <;> simp [errNameStr_mkErrorObj]

theorem asError_total_witness :
    isError (asError (.jnum 42)) = true ∧
      errNameStr (asError (.jnum 42)) = "number" ∧
      asError vFooNamed = vFooNamed :=
  ⟨(asError_total_spec (.jnum 42)).1,
   (asError_total_spec (.jnum 42)).2.2.2 rfl,
   (asError_total_spec vFooNamed).2.2.1 rfl⟩

/-- C8: `Router.match` consults only the path of the request: for a fixed
route table, two requests with equal paths (in particular, the same request
twice, or two requests differing only in method, headers, query or body)
produce identical match results. -/
theorem matchRoute_pure {Ctx : Type} (routes : List (Route Ctx)) (r1 r2 : Request)
    (h : r1.path = r2.path) :
    matchRoute routes r1 = matchRoute routes r2 := by
  simp [matchRoute, h]

/-- Demo request equal to `reqUsers7` in path but differing in method, headers,
query and body. -/
def reqUsers7Post : Request :=
  ⟨"\x7b\x7d", .ok (.jobj [] "Object" false none (some "\x7b\x7d")), "POST",
    "http://h/users/7?x=1", "http", "h", "80", "/users/7", "x=1",
    [("x", "1")], [("content-type", "application/json")]⟩

theorem matchRoute_pure_witness :
    reqUsers7.path = reqUsers7Post.path ∧
      reqUsers7.method ≠ reqUsers7Post.method ∧
      matchRoute demoRoutes reqUsers7 = matchRoute demoRoutes reqUsers7Post :=
  ⟨rfl, by decide, matchRoute_pure demoRoutes reqUsers7 reqUsers7Post rfl⟩

/-- C9: the catch site classifies by constructor identity, not structurally:
whenever the thrown value is not an instance of the `InvalidRequestError`
class, even an error-like object whose `name` field is the string
"InvalidRequestError" with a string message, `Router.handle` emits the 500
server-error response, not the 400 client-error response. -/
theorem handle_instance_check {Ctx : Type} (routes : List (Route Ctx))
    (data : RouteHandlerDef Ctx) (hd : HandlerArgs Ctx → HandlerOutcome) (e : JVal)
    (hmatch : (matchRoute routes data.req).handler = some hd)
    (hthrow : hd ⟨data.req, data.context, (matchRoute routes data.req).params⟩ = .threw e)
    (_hname : errNameStr e = "InvalidRequestError")
    (_herrlike : isError e = true)
    (hninst : isInstIREVal e = false) :
    handle routes data =
      ⟨[⟨[("error", .jstr "Internal Server Error")], 500⟩], [e]⟩ := by
  simp [handle, hmatch, hthrow, handleCatch, hninst]

/-- Plain object structurally indistinguishable from an `InvalidRequestError`
but not an instance of the class. -/
def fakeIRE : JVal :=
  .jobj [("name", .jstr "InvalidRequestError"), ("message", .jstr "nope"),
         ("stack", .jstr "")] "Object" false none none

/-- Handler that throws the structural fake. -/
def fakeIREHandler : HandlerArgs Unit → HandlerOutcome := fun _ => .threw fakeIRE

/-- Demo route table whose handler throws the structural fake. -/
def routesFake : List (Route Unit) := [⟨"/fake", fakeIREHandler⟩]

/-- Demo request reaching the fake-throwing handler. -/
def reqFake : Request :=
  ⟨"", .ok .jnull, "GET", "http://h/fake", "http", "h", "80", "/fake", "", [], []⟩

theorem handle_instance_check_witness :
    handle routesFake ⟨reqFake, ()⟩ =
      ⟨[⟨[("error", .jstr "Internal Server Error")], 500⟩], [fakeIRE]⟩ :=
  handle_instance_check routesFake ⟨reqFake, ()⟩ fakeIREHandler fakeIRE
    rfl rfl rfl rfl rfl

/-- C10: `isError` accepts any object with a string `name`, a string `message`
and a `stack` field that, when present, is a string, regardless of its
constructor or class; `asError` returns every such value unchanged (the same
value, not a copy); consequently `asError` is idempotent on every input. -/
theorem isError_structural_spec :
    (∀ (fields : List (String × JVal)) (ctor : String) (inst : Bool)
        (cts jr : Option String),
        isStrField fields "name" = true →
        isStrField fields "message" = true →
        (hasField fields "stack" = true → isStrField fields "stack" = true) →
        isError (.jobj fields ctor inst cts jr) = true ∧
          asError (.jobj fields ctor inst cts jr) = .jobj fields ctor inst cts jr) ∧
    (∀ v, isError v = true → asError v = v) ∧
    (∀ v, asError (asError v) = asError v) := by
  have hstruct : ∀ (fields : List (String × JVal)) (ctor : String) (inst : Bool)
      (cts jr : Option String),
      isStrField fields "name" = true → isStrField fields "message" = true →
      (hasField fields "stack" = true → isStrField fields "stack" = true) →
      isError (.jobj fields ctor inst cts jr) = true := by
    intro fields ctor inst cts jr h1 h2 h3
    simp only [isError, h1, h2, Bool.true_and]
    by_cases hc : hasField fields "stack" = true
    · simp [hc, h3 hc]
    · simp [Bool.not_eq_true] at hc
      simp [hc]
  refine ⟨?_, fun v h => asError_of_isError h, ?_⟩
  · intro fields ctor inst cts jr h1 h2 h3
    have h := hstruct fields ctor inst cts jr h1 h2 h3
    exact ⟨h, asError_of_isError h⟩
  · intro v
    exact asError_of_isError (isError_asError v)

theorem isError_structural_witness :
    isError (.jobj [("name", .jstr "Weird"), ("message", .jstr "x")]
        "NotAnErrorClass" false none none) = true ∧
      asError (.jobj [("name", .jstr "Weird"), ("message", .jstr "x")]
        "NotAnErrorClass" false none none) =
        .jobj [("name", .jstr "Weird"), ("message", .jstr "x")]
          "NotAnErrorClass" false none none :=
  isError_structural_spec.1 [("name", .jstr "Weird"), ("message", .jstr "x")]
    "NotAnErrorClass" false none none rfl rfl (by decide)

end AFT
